import Mathlib

/-!
Verification of the GTO-simulation real-time session engine
(voice analysis service, pressure engine, simulation gateway).

The embedding below translates the TypeScript sources:
  - src/modules/gto-simulation/voice/voice-analysis.service.ts
  - src/modules/gto-simulation/pressure/pressure.engine.ts
  - the GTO simulation WebSocket gateway

JS numbers are modelled as rationals (ℚ); `Math.random()` draws are
modelled as an explicit list of rationals consumed in call order; the
per-session-id maps of the singleton services are modelled as the state
of one session (all operations are keyed by a single session id, so the
map entries are independent).
-/

/-- JS `Math.round`: round half toward positive infinity. -/
def jsRound (x : ℚ) : ℚ := ((⌊x + 1/2⌋ : ℤ) : ℚ)

/-- JS `Number.prototype.toFixed(0)` (round half away from zero), as an integer. -/
def jsToFixed0 (x : ℚ) : ℤ := if 0 ≤ x then ⌊x + 1/2⌋ else -⌊-x + 1/2⌋

/-- JS `parseFloat(x.toFixed(3))`: round to three decimal places. -/
def jsToFixed3 (x : ℚ) : ℚ := jsRound (x * 1000) / 1000

/-- JS `arr.slice(-n)`: the last `n` elements (the whole list when it is shorter). -/
def sliceLast {α : Type} (n : Nat) (l : List α) : List α := l.drop (l.length - n)

/-- `avg` from voice-analysis.service.ts: sum divided by length, `0` on the empty array. -/
def avgQ (l : List ℚ) : ℚ := if l.length = 0 then 0 else l.sum / (l.length : ℚ)

-- ── Voice analysis service ─────────────────────────────────────────────────────

/-- `VoiceFrame` from voice-analysis.service.ts. -/
structure VoiceFrame where
  timestamp : ℚ
  rmsVolume : ℚ
  pitchHz : ℚ
  pitchVariance : ℚ
  speechRate : ℚ
  pauseDurationMs : ℚ
  fillerWordCount : ℚ
  wordCount : ℚ
  transcript : String
deriving DecidableEq, Repr

/-- The `rawValues` field of `VoiceMetricsSnapshot`. -/
structure RawValues where
  avgPitch : ℚ
  avgVolume : ℚ
  avgSpeechRate : ℚ
  totalPauses : ℚ
  totalFillers : ℚ
deriving DecidableEq, Repr

/-- `VoiceMetricsSnapshot` from voice-analysis.service.ts. -/
structure VoiceMetricsSnapshot where
  timestamp : ℚ
  voiceTremor : ℚ
  speechHesitation : ℚ
  toneDrop : ℚ
  volumeDrop : ℚ
  ideaAbandonment : Bool
  confidenceScore : ℚ
  rawValues : RawValues
deriving DecidableEq, Repr

/-- The union type of the `type` field of `StepBackEvent`. -/
inductive StepBackType where
  | VOICE_TREMOR
  | HESITATION
  | IDEA_ABANDON
  | TONE_DROP
  | VOLUME_DROP
  | CONFIDENCE_COLLAPSE
deriving DecidableEq, Repr

/-- The union type of the `severity` field of `StepBackEvent`. -/
inductive Severity where
  | MILD
  | MODERATE
  | SEVERE
deriving DecidableEq, Repr

/-- `StepBackEvent` from voice-analysis.service.ts. -/
structure StepBackEvent where
  timestamp : ℚ
  type : StepBackType
  severity : Severity
  confidenceBefore : ℚ
  confidenceAfter : ℚ
  transcript : String
  aiChallenge : String
  description : String
deriving DecidableEq, Repr

/-- A calibrated baseline (value type of the `baselines` map). -/
structure Baseline where
  avgPitch : ℚ
  avgVolume : ℚ
  avgRate : ℚ
deriving DecidableEq, Repr

/-- The per-session state of `VoiceAnalysisService`: the entry of the
`sessionFrames` map (`none` when the id is absent) and of the `baselines` map. -/
structure VoiceState where
  frames : Option (List VoiceFrame)
  baseline : Option Baseline
deriving DecidableEq, Repr

/-- `VoiceAnalysisService.initSession`. -/
def voiceInitSession : VoiceState := { frames := some [], baseline := none }

/-- `VoiceAnalysisService.endSession`. -/
def voiceEndSession : VoiceState := { frames := none, baseline := none }

/-- `VoiceAnalysisService.calibrateBaseline`: mean pitch/volume/rate over the
frames with timestamp ≤ 30000, provided at least 5 such frames exist
(otherwise the baseline is left unset, modelled by `none`). -/
def calibrateBaseline (frames : List VoiceFrame) : Option Baseline :=
  let baselineFrames := frames.filter (fun f => f.timestamp ≤ 30000)
  if baselineFrames.length < 5 then none
  else
    some { avgPitch := avgQ (baselineFrames.map (fun f => f.pitchHz)),
           avgVolume := avgQ (baselineFrames.map (fun f => f.rmsVolume)),
           avgRate := avgQ (baselineFrames.map (fun f => f.speechRate)) }

/-- `VoiceAnalysisService.computeMetrics` over the frame list and the current
baseline. The `Date.now()` fallback for the timestamp of an empty window is
modelled as `0`; it is unreachable from `processFrame`, which always passes a
nonempty list. -/
def computeMetrics (frames : List VoiceFrame) (baseline : Option Baseline) :
    VoiceMetricsSnapshot :=
  let recent := sliceLast 10 frames
  let avgPitch := avgQ (recent.map (fun f => f.pitchHz))
  let avgVolume := avgQ (recent.map (fun f => f.rmsVolume))
  let avgRate := avgQ (recent.map (fun f => f.speechRate))
  let avgPitchVar := avgQ (recent.map (fun f => f.pitchVariance))
  let totalPauses : ℕ := (recent.filter (fun f => 1500 < f.pauseDurationMs)).length
  let totalFillers : ℚ := (recent.map (fun f => f.fillerWordCount)).sum
  let voiceTremor := min 100 (avgPitchVar * 5)
  let fillerScore := min 50 (totalFillers * 10)
  let pauseScore := min 50 ((totalPauses : ℚ) * 15)
  let speechHesitation := min 100 (fillerScore + pauseScore)
  let toneDrop :=
    match baseline with
    | some b =>
        if 0 < b.avgPitch then
          max 0 (min 100 (((b.avgPitch - avgPitch) / b.avgPitch * 100) * 3))
        else 0
    | none => 0
  let volumeDrop :=
    match baseline with
    | some b =>
        if 0 < b.avgVolume then
          max 0 (min 100 (((b.avgVolume - avgVolume) / b.avgVolume * 100) * 3))
        else 0
    | none => 0
  let lastFrame := recent.getLast?
  let ideaAbandonment :=
    match lastFrame with
    | some lf => decide (3000 < lf.pauseDurationMs ∧ lf.wordCount < 3 ∧ 40 < volumeDrop)
    | none => false
  let tremorPenalty := voiceTremor * (0.2 : ℚ)
  let hesitationPenalty := speechHesitation * (0.25 : ℚ)
  let tonePenalty := toneDrop * (0.15 : ℚ)
  let volumePenalty := volumeDrop * (0.2 : ℚ)
  let abandonPenalty : ℚ := if ideaAbandonment then 20 else 0
  let confidenceScore :=
    max 0 (min 100
      (100 - tremorPenalty - hesitationPenalty - tonePenalty - volumePenalty - abandonPenalty))
  { timestamp := (lastFrame.map (fun f => f.timestamp)).getD 0,
    voiceTremor := jsRound voiceTremor,
    speechHesitation := jsRound speechHesitation,
    toneDrop := jsRound toneDrop,
    volumeDrop := jsRound volumeDrop,
    ideaAbandonment := ideaAbandonment,
    confidenceScore := jsRound confidenceScore,
    rawValues :=
      { avgPitch := jsRound avgPitch,
        avgVolume := jsToFixed3 avgVolume,
        avgSpeechRate := jsRound avgRate,
        totalPauses := (totalPauses : ℚ),
        totalFillers := totalFillers } }

/-- `VoiceAnalysisService.processFrame`: append the frame (`get(id) || []`
recreates a missing entry), calibrate the baseline when none exists, the
timestamp of the frame exceeds 30000 and more than 10 frames are stored, then
compute the metrics snapshot. -/
def processFrame (vs : VoiceState) (frame : VoiceFrame) :
    VoiceState × VoiceMetricsSnapshot :=
  let frames := vs.frames.getD [] ++ [frame]
  let baseline :=
    if vs.baseline = none ∧ 30000 < frame.timestamp ∧ 10 < frames.length then
      calibrateBaseline frames
    else vs.baseline
  ({ frames := some frames, baseline := baseline }, computeMetrics frames baseline)

/-- `VoiceAnalysisService.getRecentTranscript`. -/
def getRecentTranscript (frames : List VoiceFrame) (n : Nat) : String :=
  String.intercalate (" ")
    (((sliceLast n frames).map (fun f => f.transcript)).filter (fun s => s ≠ ""))

/-- `VoiceAnalysisService.detectStepBack`: priority chain of step-back rules. -/
def detectStepBack (vs : VoiceState) (currentMetrics : VoiceMetricsSnapshot)
    (previousMetrics : Option VoiceMetricsSnapshot) (aiChallenge : String) :
    Option StepBackEvent :=
  match previousMetrics with
  | none => none
  | some prev =>
    let confidenceDrop := prev.confidenceScore - currentMetrics.confidenceScore
    let transcript := getRecentTranscript (vs.frames.getD []) 5
    if 25 < confidenceDrop then
      some { timestamp := currentMetrics.timestamp,
             type := StepBackType.CONFIDENCE_COLLAPSE,
             severity := if 40 < confidenceDrop then Severity.SEVERE else Severity.MODERATE,
             confidenceBefore := prev.confidenceScore,
             confidenceAfter := currentMetrics.confidenceScore,
             transcript := transcript,
             aiChallenge := aiChallenge,
             description := "Confidence dropped by " ++ toString (jsToFixed0 confidenceDrop)
               ++ " points after AI challenge" }
    else if currentMetrics.ideaAbandonment then
      some { timestamp := currentMetrics.timestamp,
             type := StepBackType.IDEA_ABANDON,
             severity := Severity.MODERATE,
             confidenceBefore := prev.confidenceScore,
             confidenceAfter := currentMetrics.confidenceScore,
             transcript := transcript,
             aiChallenge := aiChallenge,
             description := "Candidate abandoned their idea after AI interruption" }
    else if 70 < currentMetrics.voiceTremor then
      some { timestamp := currentMetrics.timestamp,
             type := StepBackType.VOICE_TREMOR,
             severity := if 85 < currentMetrics.voiceTremor then Severity.SEVERE
                         else Severity.MODERATE,
             confidenceBefore := prev.confidenceScore,
             confidenceAfter := currentMetrics.confidenceScore,
             transcript := transcript,
             aiChallenge := aiChallenge,
             description := "Voice tremor detected ("
               ++ toString (jsToFixed0 currentMetrics.voiceTremor) ++ "/100)" }
    else if 60 < currentMetrics.volumeDrop then
      some { timestamp := currentMetrics.timestamp,
             type := StepBackType.VOLUME_DROP,
             severity := if 80 < currentMetrics.volumeDrop then Severity.SEVERE
                         else Severity.MILD,
             confidenceBefore := prev.confidenceScore,
             confidenceAfter := currentMetrics.confidenceScore,
             transcript := transcript,
             aiChallenge := aiChallenge,
             description := "Volume dropped significantly ("
               ++ toString (jsToFixed0 currentMetrics.volumeDrop) ++ "/100)" }
    else if 60 < currentMetrics.toneDrop then
      some { timestamp := currentMetrics.timestamp,
             type := StepBackType.TONE_DROP,
             severity := Severity.MILD,
             confidenceBefore := prev.confidenceScore,
             confidenceAfter := currentMetrics.confidenceScore,
             transcript := transcript,
             aiChallenge := aiChallenge,
             description := "Pitch/tone declined ("
               ++ toString (jsToFixed0 currentMetrics.toneDrop) ++ "/100)" }
    else none

-- ── Pressure engine ────────────────────────────────────────────────────────────

/-- The union type of the `interruptionType` field of `InterruptionDecision`. -/
inductive InterruptionType where
  | NONE
  | CHALLENGE
  | REDIRECT
  | DEMAND_CLARITY
  | DISMISS
  | PRESSURE_TEST
deriving DecidableEq, Repr

/-- `InterruptionDecision` from pressure.engine.ts. -/
structure InterruptionDecision where
  shouldInterrupt : Bool
  interruptionType : InterruptionType
  text : String
  ttsText : String
  pressureLevel : ℕ
  tactic : String
  waitBeforeMs : ℤ
deriving DecidableEq, Repr

/-- `PressureState` from pressure.engine.ts. -/
structure PressureState where
  currentLevel : ℕ
  interruptionCount : ℕ
  challengeCount : ℕ
  lastInterruptionAt : ℚ
  candidateStepBacks : ℕ
  escalationTriggers : List String
deriving DecidableEq, Repr

/-- One entry of a per-level pool in the `INTERRUPTIONS` table. -/
structure InterruptionCategory where
  type : InterruptionType
  templates : List String
  tactic : String
deriving DecidableEq, Repr

/-- The `INTERRUPTIONS` table: pools of categories/templates per pressure level. -/
def INTERRUPTIONS (level : ℕ) : List InterruptionCategory :=
  match level with
  | 1 =>
    [ { type := InterruptionType.CHALLENGE,
        templates :=
          [ "Wait. Explain that again — why did you choose this approach specifically?",
            "Hold on. How many people are in your group? You haven\x27t accounted for everyone.",
            "Stop. What\x27s your backup plan if this fails?" ],
        tactic := "Gentle probing — testing clarity of thought" } ]
  | 2 =>
    [ { type := InterruptionType.DEMAND_CLARITY,
        templates :=
          [ "That doesn\x27t make sense. You said one thing earlier and now you\x27re contradicting yourself. Which is it?",
            "I\x27m not convinced. Give me a concrete reason why your plan would work in the field.",
            "You\x27re wasting time. Get to the point — what exactly is your plan?",
            "How many minutes do you think you have? You\x27re already behind." ],
        tactic := "Time pressure + logical inconsistency attack" },
      { type := InterruptionType.REDIRECT,
        templates :=
          [ "Forget that approach. What else can you do?",
            "That\x27s been tried before and it failed. Think of something original." ],
        tactic := "Forcing candidate to abandon plan and think on feet" } ]
  | 3 =>
    [ { type := InterruptionType.DISMISS,
        templates :=
          [ "I don\x27t think you\x27ve understood the problem at all. Start over.",
            "Your team is looking at you. Do you even have a plan or are you just talking?",
            "An officer needs to be decisive. You\x27re not showing me that right now.",
            "Every second you hesitate, your group loses confidence in you." ],
        tactic := "Direct dismissal — testing emotional resilience" },
      { type := InterruptionType.PRESSURE_TEST,
        templates :=
          [ "The enemy is advancing. You have 30 seconds. What do you do? NOW.",
            "Your subordinate just refused your order. The group is watching. React." ],
        tactic := "Extreme time pressure — chaos injection" } ]
  | 4 =>
    [ { type := InterruptionType.PRESSURE_TEST,
        templates :=
          [ "You just lost two team members. Your plan is falling apart. What now?",
            "I\x27ve heard better plans from cadets on their first day. Prove me wrong.",
            "If this were real, people would be in danger because of your indecisiveness. Do better.",
            "Stop. Look at me. Tell me ONE reason I should let you continue leading this task." ],
        tactic := "Personal challenge — testing core confidence" },
      { type := InterruptionType.DISMISS,
        templates :=
          [ "You clearly haven\x27t prepared for this. Why are you here?",
            "An officer leads from the front. Right now you\x27re hiding behind words." ],
        tactic := "Identity-level challenge — maximum psychological pressure" } ]
  | 5 =>
    [ { type := InterruptionType.PRESSURE_TEST,
        templates :=
          [ "Fine. Your plan failed. Two casualties. The mission is compromised. NOW what?",
            "The entire group has lost faith in you. You have 10 seconds to win them back. Go.",
            "I\x27m pulling you from command. Unless you can show me RIGHT NOW that you deserve to lead.",
            "This is your last chance. One clear, decisive action. What is it?" ],
        tactic := "Maximum pressure — crisis simulation — pass/fail moment" } ]
  | _ => []

/-- Totalizing default for an out-of-range pool index (unreachable for
`Math.random()` draws in [0,1) over a nonempty pool). -/
def defaultCategory : InterruptionCategory :=
  { type := InterruptionType.NONE, templates := [], tactic := "" }

/-- The fresh state installed by `PressureEngine.initSession`. -/
def pressureInitState : PressureState :=
  { currentLevel := 1, interruptionCount := 0, challengeCount := 0,
    lastInterruptionAt := 0, candidateStepBacks := 0, escalationTriggers := [] }

/-- `PressureEngine.noInterrupt`. -/
def noInterrupt (level : ℕ) : InterruptionDecision :=
  { shouldInterrupt := false, interruptionType := InterruptionType.NONE,
    text := "", ttsText := "", pressureLevel := level, tactic := "", waitBeforeMs := 0 }

/-- One `Math.random()` draw from an explicit stream (0 when exhausted;
actual draws lie in [0,1)). -/
def rngNext : List ℚ → ℚ × List ℚ
  | [] => (0, [])
  | x :: xs => (x, xs)

/-- `PressureEngine.evaluateEscalation`: every 3rd interruption escalates one
level (cap 5); sustained over-confidence (> 80 with more than 2 interruptions)
escalates once more. The second check reads the level already updated by the
first, exactly as the mutating source does. -/
def evaluateEscalation (state : PressureState) (metrics : VoiceMetricsSnapshot) :
    PressureState :=
  if 5 ≤ state.currentLevel then state
  else
    let s1 :=
      if state.interruptionCount % 3 = 0 ∧ 0 < state.interruptionCount then
        { state with
          currentLevel := min 5 (state.currentLevel + 1),
          escalationTriggers := state.escalationTriggers ++
            ["Escalated to L" ++ toString (min 5 (state.currentLevel + 1)) ++ " after "
              ++ toString state.interruptionCount ++ " interruptions"] }
      else state
    if 80 < metrics.confidenceScore ∧ 2 < state.interruptionCount then
      { s1 with
        currentLevel := min 5 (s1.currentLevel + 1),
        escalationTriggers := s1.escalationTriggers ++
          ["Escalated to L" ++ toString (min 5 (s1.currentLevel + 1))
            ++ " — candidate too confident"] }
    else s1

/-- `PressureEngine.recordStepBack` on an existing state: increment the
step-back counter; from the 3rd cumulative step-back onward, and only while
the level is above 2, relieve pressure by one level (floor 2). -/
def recordStepBack (state : PressureState) : PressureState :=
  let s1 :=
    { state with
      candidateStepBacks := state.candidateStepBacks + 1,
      escalationTriggers := state.escalationTriggers ++
        ["Step-back #" ++ toString (state.candidateStepBacks + 1) ++ " detected"] }
  if 3 ≤ s1.candidateStepBacks ∧ 2 < s1.currentLevel then
    { s1 with currentLevel := max 2 (s1.currentLevel - 1) }
  else s1

/-- `PressureEngine.evaluateInterruption` on an existing state. Returns the
decision, the updated state, and the remaining random stream. Draws are
consumed in source order: probability draw, category index, template index,
immediate-or-delayed draw, then (only when delayed) the delay amount. -/
def evaluateInterruption (state : PressureState) (metrics : VoiceMetricsSnapshot)
    (elapsedMs : ℚ) (candidateWordsSinceLastInterrupt : ℚ) (g : List ℚ) :
    InterruptionDecision × PressureState × List ℚ :=
  let timeSinceLastInterrupt := elapsedMs - state.lastInterruptionAt
  if elapsedMs < 15000 then (noInterrupt state.currentLevel, state, g)
  else
    let minGapMs : ℚ := max 8000 (25000 - (state.currentLevel : ℚ) * 4000)
    if timeSinceLastInterrupt < minGapMs then (noInterrupt state.currentLevel, state, g)
    else
      let minWords : ℚ := max 10 (40 - (state.currentLevel : ℚ) * 6)
      if candidateWordsSinceLastInterrupt < minWords then
        (noInterrupt state.currentLevel, state, g)
      else
        let p0 : ℚ := (0.3 : ℚ) + (state.currentLevel : ℚ) * (0.12 : ℚ)
        let p1 := if 70 < metrics.confidenceScore then p0 + (0.15 : ℚ) else p0
        let probability := if 85 < metrics.confidenceScore then p1 + (0.15 : ℚ) else p1
        let r1 := (rngNext g).1
        let g1 := (rngNext g).2
        if probability < r1 then (noInterrupt state.currentLevel, state, g1)
        else
          let level := state.currentLevel
          let pool := INTERRUPTIONS level
          let r2 := (rngNext g1).1
          let g2 := (rngNext g1).2
          let category := pool.getD (Int.toNat ⌊r2 * (pool.length : ℚ)⌋) defaultCategory
          let r3 := (rngNext g2).1
          let g3 := (rngNext g2).2
          let text := category.templates.getD
            (Int.toNat ⌊r3 * (category.templates.length : ℚ)⌋) ""
          let s1 :=
            { state with
              interruptionCount := state.interruptionCount + 1,
              challengeCount := state.challengeCount + 1,
              lastInterruptionAt := elapsedMs }
          let s2 := evaluateEscalation s1 metrics
          let r4 := (rngNext g3).1
          let g4 := (rngNext g3).2
          let wd : ℤ × List ℚ :=
            if r4 < (0.3 : ℚ) then (0, g4)
            else (⌊(rngNext g4).1 * 2000⌋, (rngNext g4).2)
          ({ shouldInterrupt := true, interruptionType := category.type,
             text := text, ttsText := text, pressureLevel := s2.currentLevel,
             tactic := category.tactic, waitBeforeMs := wd.1 }, s2, wd.2)

/-- `PressureEngine.evaluateInterruption` including the unknown-session branch
(`!state` yields the deterministic no-op decision at level 1). -/
def evaluateInterruptionOpt (st : Option PressureState) (metrics : VoiceMetricsSnapshot)
    (elapsedMs : ℚ) (words : ℚ) (g : List ℚ) :
    InterruptionDecision × Option PressureState × List ℚ :=
  match st with
  | none =>
    ({ shouldInterrupt := false, interruptionType := InterruptionType.NONE,
       text := "", ttsText := "", pressureLevel := 1, tactic := "", waitBeforeMs := 0 },
     none, g)
  | some s =>
    let r := evaluateInterruption s metrics elapsedMs words g
    (r.1, some r.2.1, r.2.2)

/-- `PressureEngine.recordStepBack` including the unknown-session no-op branch. -/
def recordStepBackOpt (st : Option PressureState) : Option PressureState :=
  match st with
  | none => none
  | some s => some (recordStepBack s)

/-- One call into the pressure engine for a fixed session id. -/
inductive PEOp where
  | init
  | stepBack
  | evalI (metrics : VoiceMetricsSnapshot) (elapsedMs : ℚ) (words : ℚ) (g : List ℚ)
  | endS
deriving DecidableEq, Repr

/-- Effect of one engine call on the per-session entry of the `states` map
(`none` = id absent, i.e. uninitialized or ended). -/
def applyPEOp (st : Option PressureState) : PEOp → Option PressureState
  | PEOp.init => some pressureInitState
  | PEOp.stepBack => recordStepBackOpt st
  | PEOp.evalI metrics elapsedMs words g =>
      (evaluateInterruptionOpt st metrics elapsedMs words g).2.1
  | PEOp.endS => none

/-- The per-session pressure state after an arbitrary interleaving of engine
calls, starting from an uninitialized id. -/
def runPEOps (ops : List PEOp) : Option PressureState :=
  ops.foldl applyPEOp none

-- ── Simulation gateway ─────────────────────────────────────────────────────────

/-- `SimulationConfig` from the gateway (task type and difficulty kept as
their literal string values). -/
structure SimulationConfig where
  taskType : String
  durationSec : ℤ
  groupSize : ℕ
  scenario : String
  difficulty : String
deriving DecidableEq, Repr

/-- One entry of `client.aiInterventions`. -/
structure Intervention where
  timestamp : ℚ
  text : String
  type : InterruptionType
  level : ℕ
deriving DecidableEq, Repr

/-- The row written by `prisma.gTOTestSession.create` in `handleStart`. -/
structure DbCreate where
  id : String
  userId : String
  taskType : String
  status : String
  durationSec : ℤ
  isGD : Bool
  scenario : String
  difficulty : String
  groupSize : ℕ
deriving DecidableEq, Repr

/-- The update written by `prisma.gTOTestSession.update` in `handleEnd`. -/
structure DbUpdate where
  id : String
  status : String
  transcript : String
  stepBackEvents : List StepBackEvent
  aiInterventions : List Intervention
  pressureFinalState : Option PressureState
  endReason : String
deriving DecidableEq, Repr

/-- The audit row written by `prisma.agentLog.create` on a step-back. -/
structure AgentLogRow where
  userId : String
  stepBack : StepBackEvent
  pressureState : Option PressureState
deriving DecidableEq, Repr

/-- One emission to the client (`client.emit` / room broadcast), in order. -/
inductive Evt where
  | connected
  | aiSpeak (text : String) (ttsText : String) (speakType : String) (pressureLevel : ℕ)
  | simStarted (sessionId : String) (taskType : String) (durationSec : ℤ)
  | simMetrics (m : VoiceMetricsSnapshot)
  | simStepBack (e : StepBackEvent)
  | simInterrupt (d : InterruptionDecision)
  | simTick (remaining : ℤ) (elapsed : ℤ)
  | simEnded (sessionId : String) (totalStepBacks : ℕ) (totalInterruptions : ℕ)
      (maxPressureLevel : ℕ)
deriving DecidableEq, Repr

/-- The countdown closure state of `startCountdown` (`remaining` and the
captured `durationSec`); present exactly while the interval is registered in
the `timers` map. -/
structure Countdown where
  remaining : ℤ
  durationSec : ℤ
deriving DecidableEq, Repr

/-- The whole observable world of the gateway for one connected client and
its (at most one) session: the per-client socket fields, the per-session
state of the two engines, the countdown timer, the scheduled-but-not-yet-fired
delayed interrupt emissions, the ordered emission log, the durable-store
writes, and the pending `Math.random()` stream. -/
structure World where
  userId : String
  sessionId : Option String
  sessionStartMs : Option ℚ
  wordsSinceLastInterrupt : ℚ
  previousMetrics : Option VoiceMetricsSnapshot
  lastAiChallenge : Option String
  stepBackEvents : List StepBackEvent
  fullTranscript : List String
  aiInterventions : List Intervention
  voice : VoiceState
  pressure : Option PressureState
  timer : Option Countdown
  pending : List (ℤ × InterruptionDecision)
  emissions : List Evt
  dbCreates : List DbCreate
  dbUpdates : List DbUpdate
  agentLogs : List AgentLogRow
  rng : List ℚ
deriving DecidableEq, Repr

/-- The world right after `handleConnection` authenticated the client. -/
def connectedWorld (userId : String) (g : List ℚ) : World :=
  { userId := userId, sessionId := none, sessionStartMs := none,
    wordsSinceLastInterrupt := 0, previousMetrics := none, lastAiChallenge := none,
    stepBackEvents := [], fullTranscript := [], aiInterventions := [],
    voice := { frames := none, baseline := none }, pressure := none,
    timer := none, pending := [], emissions := [Evt.connected],
    dbCreates := [], dbUpdates := [], agentLogs := [], rng := g }

/-- `getOpeningStatement`; JS number-to-string interpolation of
`durationSec / 60` is modelled by `toString` on the rational. -/
def getOpeningStatement (config : SimulationConfig) : String :=
  let minutes := toString ((config.durationSec : ℚ) / 60)
  if config.taskType = "PGT" then
    "Right. This is a Progressive Group Task. You have " ++ minutes ++ " minutes. Your group of "
      ++ toString config.groupSize
      ++ " must cross the obstacles using the materials provided. I want to see planning, coordination, and execution. No idle members. Begin your planning now."
  else if config.taskType = "HGT" then
    "This is a Half Group Task. You have " ++ minutes
      ++ " minutes with half your group. I expect every member to contribute. Plan first, then execute. The clock starts NOW."
  else if config.taskType = "FGT" then
    "Final Group Task. This is your last chance to demonstrate leadership. " ++ minutes
      ++ " minutes. I want to see improvement over your previous tasks. No excuses. Start planning."
  else if config.taskType = "COMMAND_TASK" then
    "You are the commander for this task. The rest are your subordinates. You have " ++ minutes
      ++ " minutes. Show me you can lead. Plan, delegate, and execute. Begin."
  else if config.taskType = "GPE" then
    "Group Planning Exercise. Study the model carefully. You have 5 minutes to read, then each of you will present your individual plan. I want clarity, logic, and decisiveness."
  else if config.taskType = "GD" then
    "Group Discussion topic will be announced. You have " ++ minutes
      ++ " minutes. I want structured arguments, not noise. Quality over quantity. The topic is: \""
      ++ config.scenario ++ "\". Begin."
  else if config.taskType = "LECTURETTE" then
    "You have 3 minutes to prepare, then 3 minutes to present your lecturette. Topic: \""
      ++ config.scenario
      ++ "\". I want clear structure, confident delivery, and eye contact. Your preparation time starts now."
  else "Begin your task. I am observing."

/-- `handleStart`: create the ACTIVE store record (`newId` is the id the store
returns), remember session id and wall-clock start (`now` models
`Date.now()`), initialize both engines, register the countdown, and emit the
opening statement followed by `sim:started`. -/
def handleStart (config : SimulationConfig) (newId : String) (now : ℚ) (w : World) :
    World :=
  let create : DbCreate :=
    { id := newId, userId := w.userId, taskType := config.taskType,
      status := "ACTIVE", durationSec := config.durationSec,
      isGD := decide (config.taskType = "GD"), scenario := config.scenario,
      difficulty := config.difficulty, groupSize := config.groupSize }
  let openingText := getOpeningStatement config
  { w with
    dbCreates := w.dbCreates ++ [create],
    sessionId := some newId,
    sessionStartMs := some now,
    voice := voiceInitSession,
    pressure := some pressureInitState,
    timer := some { remaining := config.durationSec, durationSec := config.durationSec },
    emissions := w.emissions ++
      [Evt.aiSpeak openingText openingText ("OPENING") 1,
       Evt.simStarted newId config.taskType config.durationSec] }

/-- `handleVoiceFrame`: the per-frame pipeline (`now` models `Date.now()`).
A delayed interrupt (`waitBeforeMs > 0`) is appended to `pending`, modelling
the registered `setTimeout`; an immediate one is emitted at once. -/
def handleVoiceFrame (frame : VoiceFrame) (now : ℚ) (w : World) : World :=
  match w.sessionId with
  | none => w
  | some _ =>
    let w1 :=
      if frame.transcript ≠ "" then
        { w with
          fullTranscript := w.fullTranscript ++ [frame.transcript],
          wordsSinceLastInterrupt := w.wordsSinceLastInterrupt + frame.wordCount }
      else w
    let pf := processFrame w1.voice frame
    let metrics := pf.2
    let w2 := { w1 with voice := pf.1, emissions := w1.emissions ++ [Evt.simMetrics metrics] }
    let stepBack := detectStepBack pf.1 metrics w2.previousMetrics (w2.lastAiChallenge.getD "")
    let w3 :=
      match stepBack with
      | some e =>
        let pressure1 := recordStepBackOpt w2.pressure
        { w2 with
          stepBackEvents := w2.stepBackEvents ++ [e],
          pressure := pressure1,
          agentLogs := w2.agentLogs ++
            [({ userId := w2.userId, stepBack := e, pressureState := pressure1 } : AgentLogRow)],
          emissions := w2.emissions ++ [Evt.simStepBack e] }
      | none => w2
    let elapsed := now - (w3.sessionStartMs.getD 0)
    let ev := evaluateInterruptionOpt w3.pressure metrics elapsed
      w3.wordsSinceLastInterrupt w3.rng
    let decision := ev.1
    let w4 := { w3 with pressure := ev.2.1, rng := ev.2.2 }
    let w5 :=
      if decision.shouldInterrupt then
        let w4a :=
          { w4 with
            wordsSinceLastInterrupt := 0,
            lastAiChallenge := some decision.text,
            aiInterventions := w4.aiInterventions ++
              [({ timestamp := elapsed, text := decision.text,
                  type := decision.interruptionType,
                  level := decision.pressureLevel } : Intervention)] }
        if 0 < decision.waitBeforeMs then
          { w4a with pending := w4a.pending ++ [(decision.waitBeforeMs, decision)] }
        else
          { w4a with emissions := w4a.emissions ++ [Evt.simInterrupt decision] }
      else w4
    { w5 with previousMetrics := some metrics }

/-- `handleEnd`: guarded only by `client.sessionId` being set (which is never
cleared), cancel the timer, finalize both engines, write the COMPLETED update
to the store, and emit `sim:ended`. The `|| 1` fallback of
`pressureState?.currentLevel || 1` is modelled exactly. -/
def handleEnd (reason : Option String) (w : World) : World :=
  match w.sessionId with
  | none => w
  | some sid =>
    let pressureState := w.pressure
    let w1 := { w with timer := none, pressure := none, voice := voiceEndSession }
    let upd : DbUpdate :=
      { id := sid, status := "COMPLETED",
        transcript := String.intercalate (" ") w1.fullTranscript,
        stepBackEvents := w1.stepBackEvents,
        aiInterventions := w1.aiInterventions,
        pressureFinalState := pressureState,
        endReason := reason.getD ("MANUAL") }
    let totalInterruptions :=
      match pressureState with
      | some ps => ps.interruptionCount
      | none => 0
    let maxLevel :=
      match pressureState with
      | some ps => if ps.currentLevel = 0 then 1 else ps.currentLevel
      | none => 1
    { w1 with
      dbUpdates := w1.dbUpdates ++ [upd],
      emissions := w1.emissions ++
        [Evt.simEnded sid w1.stepBackEvents.length totalInterruptions maxLevel] }

/-- `handleDisconnect`: when a session id is set, cancel the timer and discard
the per-session state of both engines. Nothing is persisted and nothing is emitted. -/
def handleDisconnect (w : World) : World :=
  match w.sessionId with
  | none => w
  | some _ => { w with timer := none, voice := voiceEndSession, pressure := none }

/-- One firing of the `startCountdown` interval callback (a no-op once the
interval has been cleared). `remaining % 5` uses JS truncated remainder. -/
def countdownTick (w : World) : World :=
  match w.timer with
  | none => w
  | some t =>
    let remaining := t.remaining - 1
    let w1 := { w with timer := some { t with remaining := remaining } }
    let w2 :=
      if Int.tmod remaining 5 = 0 then
        { w1 with emissions := w1.emissions ++
            [Evt.simTick remaining (t.durationSec - remaining)] }
      else w1
    let w3 :=
      if remaining = ⌊(t.durationSec : ℚ) * (0.5 : ℚ)⌋ then
        { w2 with emissions := w2.emissions ++
            [Evt.aiSpeak ("Half your time is gone. I expect to see results.")
              ("Half your time is gone. I expect to see results.") ("TIME_WARNING") 3] }
      else w2
    let w4 :=
      if remaining = 60 then
        { w3 with emissions := w3.emissions ++
            [Evt.aiSpeak ("One minute remaining. Wrap it up. NOW.")
              ("One minute remaining. Wrap it up. Now.") ("TIME_WARNING") 4] }
      else w3
    if remaining ≤ 0 then
      let w5 := { w4 with timer := none }
      let w6 :=
        { w5 with emissions := w5.emissions ++
            [Evt.aiSpeak ("Time. Stop. Step back from the task area.")
              ("Time. Stop. Step back from the task area.") ("TIME_UP") 5] }
      handleEnd (some ("TIMEOUT")) w6
    else w4

/-- Expiry of the earliest scheduled delayed-interrupt one-shot: the source
registers a bare `setTimeout` whose callback emits unconditionally, so firing
is not guarded by session state. -/
def fireScheduled (w : World) : World :=
  match w.pending with
  | [] => w
  | (_, d) :: rest =>
    { w with pending := rest, emissions := w.emissions ++ [Evt.simInterrupt d] }

/-- `n` firings of the countdown interval. -/
def iterTicks : ℕ → World → World
  | 0, w => w
  | n + 1, w => iterTicks n (countdownTick w)

/-- Number of `sim:tick` broadcasts so far. -/
def countTicks (w : World) : ℕ :=
  (w.emissions.filter (fun e => match e with | Evt.simTick _ _ => true | _ => false)).length

/-- Number of `sim:ended` emissions so far. -/
def countEnded (w : World) : ℕ :=
  (w.emissions.filter
    (fun e => match e with | Evt.simEnded _ _ _ _ => true | _ => false)).length

/-- Number of `sim:ai_interrupt` emissions so far. -/
def countInterruptEmits (w : World) : ℕ :=
  (w.emissions.filter
    (fun e => match e with | Evt.simInterrupt _ => true | _ => false)).length

-- ── Specification-side definitions (following the words of the spec, for comparison) ─────

/-- Spec wording (C3): the step-back rules in strict first-match priority
order, reduced to the selected kind and severity. -/
def stepBackPrioritySpec (current previous : VoiceMetricsSnapshot) :
    Option (StepBackType × Severity) :=
  let drop := previous.confidenceScore - current.confidenceScore
  if 25 < drop then
    some (StepBackType.CONFIDENCE_COLLAPSE,
          if 40 < drop then Severity.SEVERE else Severity.MODERATE)
  else if current.ideaAbandonment then
    some (StepBackType.IDEA_ABANDON, Severity.MODERATE)
  else if 70 < current.voiceTremor then
    some (StepBackType.VOICE_TREMOR,
          if 85 < current.voiceTremor then Severity.SEVERE else Severity.MODERATE)
  else if 60 < current.volumeDrop then
    some (StepBackType.VOLUME_DROP,
          if 80 < current.volumeDrop then Severity.SEVERE else Severity.MILD)
  else if 60 < current.toneDrop then
    some (StepBackType.TONE_DROP, Severity.MILD)
  else none

/-- Spec wording (C4): tremor = min(100, avgPitchVariance × 5) over the window. -/
def specTremor (recent : List VoiceFrame) : ℚ :=
  min 100 (avgQ (recent.map (fun f => f.pitchVariance)) * 5)

/-- Spec wording (C4): hesitation = min(100, min(50, fillers×10) +
min(50, longPauseCount×15)), long pauses being frames with pause > 1500 ms. -/
def specHesitation (recent : List VoiceFrame) : ℚ :=
  min 100 (min 50 ((recent.map (fun f => f.fillerWordCount)).sum * 10)
    + min 50 (((recent.filter (fun f => 1500 < f.pauseDurationMs)).length : ℚ) * 15))

/-- Spec wording (C4): toneDrop = clamp(0, 100, 3 × percentage pitch decline
vs. baseline) when a baseline exists, else 0. -/
def specToneDrop (baseline : Option Baseline) (recent : List VoiceFrame) : ℚ :=
  match baseline with
  | some b =>
      max 0 (min 100
        (3 * ((b.avgPitch - avgQ (recent.map (fun f => f.pitchHz))) / b.avgPitch * 100)))
  | none => 0

/-- Spec wording (C4): volumeDrop = clamp(0, 100, 3 × percentage volume decline
vs. baseline) when a baseline exists, else 0. -/
def specVolumeDrop (baseline : Option Baseline) (recent : List VoiceFrame) : ℚ :=
  match baseline with
  | some b =>
      max 0 (min 100
        (3 * ((b.avgVolume - avgQ (recent.map (fun f => f.rmsVolume))) / b.avgVolume * 100)))
  | none => 0

/-- Spec wording (C4): ideaAbandonment holds when the most recent frame has
pause > 3000 ms, word count < 3, and volumeDrop > 40. -/
def specIdeaAbandonment (baseline : Option Baseline) (recent : List VoiceFrame) : Bool :=
  match recent.getLast? with
  | some lf =>
      decide (3000 < lf.pauseDurationMs ∧ lf.wordCount < 3
        ∧ 40 < specVolumeDrop baseline recent)
  | none => false

/-- Spec wording (C4): composite confidence = clamp(0, 100, 100 − 0.2·tremor −
0.25·hesitation − 0.15·toneDrop − 0.2·volumeDrop − (20 if abandonment else 0)). -/
def specConfidence (baseline : Option Baseline) (recent : List VoiceFrame) : ℚ :=
  max 0 (min 100
    (100 - (0.2 : ℚ) * specTremor recent - (0.25 : ℚ) * specHesitation recent
      - (0.15 : ℚ) * specToneDrop baseline recent
      - (0.2 : ℚ) * specVolumeDrop baseline recent
      - (if specIdeaAbandonment baseline recent then 20 else 0)))

-- ── Helper lemmas: pressure engine ─────────────────────────────────────────────

lemma evaluateEscalation_level_bounds (st : PressureState) (m : VoiceMetricsSnapshot)
    (h1 : 1 ≤ st.currentLevel) (h5 : st.currentLevel ≤ 5) :
    1 ≤ (evaluateEscalation st m).currentLevel ∧ (evaluateEscalation st m).currentLevel ≤ 5 := by
  simp only [evaluateEscalation]
  split_ifs <;> (try simp) <;> omega

lemma evaluateEscalation_level_mono (st : PressureState) (m : VoiceMetricsSnapshot) :
    st.currentLevel ≤ (evaluateEscalation st m).currentLevel := by
  simp only [evaluateEscalation]
  split_ifs <;> (try simp) <;> omega

lemma evaluateEscalation_counts (st : PressureState) (m : VoiceMetricsSnapshot) :
    (evaluateEscalation st m).interruptionCount = st.interruptionCount ∧
    (evaluateEscalation st m).challengeCount = st.challengeCount ∧
    (evaluateEscalation st m).candidateStepBacks = st.candidateStepBacks := by
  simp only [evaluateEscalation]
  split_ifs <;> simp

/-- The state as updated by `evaluateInterruption` just before the escalation
check: counters incremented and `lastInterruptionAt` stamped. -/
def bumpedState (st : PressureState) (elapsedMs : ℚ) : PressureState :=
  ⟨st.currentLevel, st.interruptionCount + 1, st.challengeCount + 1, elapsedMs,
    st.candidateStepBacks, st.escalationTriggers⟩

lemma evaluateInterruption_state (st : PressureState) (m : VoiceMetricsSnapshot)
    (e w : ℚ) (g : List ℚ) :
    (evaluateInterruption st m e w g).2.1 = st ∨
    (evaluateInterruption st m e w g).2.1 = evaluateEscalation (bumpedState st e) m := by
  simp only [evaluateInterruption, bumpedState]
  split_ifs <;> simp

lemma recordStepBack_level (st : PressureState) :
    (recordStepBack st).interruptionCount = st.interruptionCount ∧
    (recordStepBack st).challengeCount = st.challengeCount ∧
    (recordStepBack st).candidateStepBacks = st.candidateStepBacks + 1 ∧
    ((recordStepBack st).currentLevel = st.currentLevel ∨
      (3 ≤ st.candidateStepBacks + 1 ∧ 2 < st.currentLevel ∧
        (recordStepBack st).currentLevel = st.currentLevel - 1)) := by
  simp only [recordStepBack]
  split_ifs with h
  all_goals simp
  all_goals omega

/-- The pressure-level range invariant on one per-session map entry. -/
def pressureInv (o : Option PressureState) : Prop :=
  ∀ s, o = some s → 1 ≤ s.currentLevel ∧ s.currentLevel ≤ 5

lemma applyPEOp_preserves (o : Option PressureState) (op : PEOp)
    (h : pressureInv o) : pressureInv (applyPEOp o op) := by
  cases op with
  | init =>
    intro s hs
    simp only [applyPEOp, Option.some.injEq] at hs
    subst hs
    exact ⟨by decide, by decide⟩
  | stepBack =>
    cases o with
    | none => intro s hs; simp [applyPEOp, recordStepBackOpt] at hs
    | some st =>
      intro s hs
      simp only [applyPEOp, recordStepBackOpt, Option.some.injEq] at hs
      subst hs
      have hb := h st rfl
      have hr := recordStepBack_level st
      rcases hr.2.2.2 with hsame | ⟨h3, h2, hdec⟩ <;> omega
  | evalI m e w g =>
    cases o with
    | none => intro s hs; simp [applyPEOp, evaluateInterruptionOpt] at hs
    | some st =>
      intro s hs
      simp only [applyPEOp, evaluateInterruptionOpt, Option.some.injEq] at hs
      subst hs
      have hb := h st rfl
      rcases evaluateInterruption_state st m e w g with h1 | h1 <;> rw [h1]
      · exact hb
      · exact evaluateEscalation_level_bounds (bumpedState st e) m
          (by simp [bumpedState]; omega) (by simp [bumpedState]; omega)
  | endS => intro s hs; simp [applyPEOp] at hs

lemma foldl_applyPEOp_preserves (l : List PEOp) :
    ∀ (o : Option PressureState), pressureInv o → pressureInv (l.foldl applyPEOp o) := by
  induction l with
  | nil => intro o h0; exact h0
  | cons op rest ih => intro o h0; exact ih _ (applyPEOp_preserves o op h0)

-- ── Claim C6 ───────────────────────────────────────────────────────────────────

/-- C6: after any interleaving of `initSession`, `evaluateInterruption`,
`recordStepBack` and `endSession` calls on the pressure engine, any reachable
per-session state has its current pressure level in [1, 5]. -/
theorem pressure_level_in_range (ops : List PEOp) (s : PressureState)
    (h : runPEOps ops = some s) : 1 ≤ s.currentLevel ∧ s.currentLevel ≤ 5 :=
  foldl_applyPEOp_preserves ops none (fun s' hs' => by cases hs') s h

/-- Witness for C6 at the concrete trace `[initSession]`. -/
theorem pressure_level_in_range_witness :
    1 ≤ pressureInitState.currentLevel ∧ pressureInitState.currentLevel ≤ 5 :=
  pressure_level_in_range [PEOp.init] pressureInitState rfl

-- ── Claim C7 ───────────────────────────────────────────────────────────────────

/-- C7: within one session (i.e. under any engine call other than a
re-initialization), `interruptionCount` and `challengeCount` never decrease,
the current level decreases only through the step-back relief rule of
`recordStepBack` — which requires at least 3 cumulative step-backs and a level
above 2 and lowers the level by exactly one — and the level never drops below
2 once it is at least 2. -/
theorem pressure_monotonic_counts_and_relief (st st' : PressureState) (op : PEOp)
    (hop : op ≠ PEOp.init) (happ : applyPEOp (some st) op = some st') :
    st.interruptionCount ≤ st'.interruptionCount ∧
    st.challengeCount ≤ st'.challengeCount ∧
    (st'.currentLevel < st.currentLevel →
      op = PEOp.stepBack ∧ 3 ≤ st'.candidateStepBacks ∧ 2 < st.currentLevel ∧
        st'.currentLevel = st.currentLevel - 1) ∧
    (2 ≤ st.currentLevel → 2 ≤ st'.currentLevel) := by
  cases op with
  | init => exact absurd rfl hop
  | endS => simp [applyPEOp] at happ
  | stepBack =>
    simp only [applyPEOp, recordStepBackOpt, Option.some.injEq] at happ
    subst happ
    have hr := recordStepBack_level st
    refine ⟨by omega, by omega, ?_, ?_⟩
    · intro hlt
      rcases hr.2.2.2 with hsame | ⟨h3, h2, hdec⟩
      · omega
      · exact ⟨rfl, by omega, h2, hdec⟩
    · intro h2
      rcases hr.2.2.2 with hsame | ⟨h3, hgt2, hdec⟩ <;> omega
  | evalI m e w g =>
    simp only [applyPEOp, evaluateInterruptionOpt, Option.some.injEq] at happ
    subst happ
    rcases evaluateInterruption_state st m e w g with h1 | h1 <;> rw [h1]
    · exact ⟨le_refl _, le_refl _, by omega, fun h => h⟩
    · have hc := evaluateEscalation_counts (bumpedState st e) m
      have hmono := evaluateEscalation_level_mono (bumpedState st e) m
      simp only [bumpedState] at hc hmono ⊢
      refine ⟨by omega, by omega, fun hlt => absurd hlt (by omega), fun h2 => by omega⟩

/-- Witness input for C7: a state with level 3 and two prior step-backs. -/
def c7StateBefore : PressureState :=
  { currentLevel := 3, interruptionCount := 0, challengeCount := 0,
    lastInterruptionAt := 0, candidateStepBacks := 2, escalationTriggers := [] }

/-- The state after the witness step-back (the relief rule fires). -/
def c7StateAfter : PressureState := recordStepBack c7StateBefore

/-- Witness for C7 at the concrete input `recordStepBack` on `c7StateBefore`. -/
theorem pressure_monotonic_counts_and_relief_witness :
    c7StateBefore.interruptionCount ≤ c7StateAfter.interruptionCount ∧
    c7StateBefore.challengeCount ≤ c7StateAfter.challengeCount ∧
    (c7StateAfter.currentLevel < c7StateBefore.currentLevel →
      PEOp.stepBack = PEOp.stepBack ∧ 3 ≤ c7StateAfter.candidateStepBacks ∧
        2 < c7StateBefore.currentLevel ∧
        c7StateAfter.currentLevel = c7StateBefore.currentLevel - 1) ∧
    (2 ≤ c7StateBefore.currentLevel → 2 ≤ c7StateAfter.currentLevel) :=
  pressure_monotonic_counts_and_relief c7StateBefore c7StateAfter PEOp.stepBack
    (by decide) rfl

-- ── Claim C3 ───────────────────────────────────────────────────────────────────

/-- C3: with a previous snapshot present, `detectStepBack` returns at most one
event (it returns an `Option`) whose kind and severity are selected by the
strict first-match priority chain `stepBackPrioritySpec`; in particular, when
the confidence-collapse and volume-drop conditions hold simultaneously the
result is a confidence-collapse event. -/
theorem detectStepBack_priority_order (vs : VoiceState)
    (curr prev : VoiceMetricsSnapshot) (ch : String) :
    ((detectStepBack vs curr (some prev) ch).map (fun e => (e.type, e.severity))
        = stepBackPrioritySpec curr prev) ∧
    (25 < prev.confidenceScore - curr.confidenceScore → 60 < curr.volumeDrop →
      ∃ e, detectStepBack vs curr (some prev) ch = some e ∧
        e.type = StepBackType.CONFIDENCE_COLLAPSE) := by
  constructor
  · simp only [detectStepBack, stepBackPrioritySpec]
    split_ifs <;> simp
  · intro h1 h2
    simp only [detectStepBack]
    rw [if_pos h1]
    exact ⟨_, rfl, rfl⟩

/-- A snapshot literal used as concrete witness input. -/
def mkSnap (tremor hes tone vol : ℚ) (abandon : Bool) (conf : ℚ) : VoiceMetricsSnapshot :=
  { timestamp := 0, voiceTremor := tremor, speechHesitation := hes, toneDrop := tone,
    volumeDrop := vol, ideaAbandonment := abandon, confidenceScore := conf,
    rawValues := { avgPitch := 0, avgVolume := 0, avgSpeechRate := 0,
                   totalPauses := 0, totalFillers := 0 } }

/-- Witness input for C3: simultaneous confidence collapse and volume drop. -/
def c3curr : VoiceMetricsSnapshot := mkSnap 0 0 0 70 false 10

/-- Witness input for C3: the previous snapshot with high confidence. -/
def c3prev : VoiceMetricsSnapshot := mkSnap 0 0 0 0 false 90

/-- Witness for C3: at the concrete snapshots, the simultaneous-condition case
yields a confidence-collapse event. -/
theorem detectStepBack_priority_order_witness :
    ∃ e, detectStepBack voiceInitSession c3curr (some c3prev) ("") = some e ∧
      e.type = StepBackType.CONFIDENCE_COLLAPSE :=
  (detectStepBack_priority_order voiceInitSession c3curr c3prev ("")).2
    (by with_unfolding_all decide) (by with_unfolding_all decide)

-- ── Claim C10 ──────────────────────────────────────────────────────────────────

/-- C10: `detectStepBack` never returns a HESITATION event, never returns a
MODERATE volume-drop, always returns tone-drop as MILD, and only the five rule
rule-branch kind/severity combinations are reachable. -/
theorem detectStepBack_reachable_kinds (vs : VoiceState) (curr : VoiceMetricsSnapshot)
    (prevOpt : Option VoiceMetricsSnapshot) (ch : String) (e : StepBackEvent)
    (h : detectStepBack vs curr prevOpt ch = some e) :
    e.type ≠ StepBackType.HESITATION ∧
    (e.type = StepBackType.VOLUME_DROP → e.severity ≠ Severity.MODERATE) ∧
    (e.type = StepBackType.TONE_DROP → e.severity = Severity.MILD) ∧
    (e.type, e.severity) ∈
      ([(StepBackType.CONFIDENCE_COLLAPSE, Severity.SEVERE),
        (StepBackType.CONFIDENCE_COLLAPSE, Severity.MODERATE),
        (StepBackType.IDEA_ABANDON, Severity.MODERATE),
        (StepBackType.VOICE_TREMOR, Severity.SEVERE),
        (StepBackType.VOICE_TREMOR, Severity.MODERATE),
        (StepBackType.VOLUME_DROP, Severity.SEVERE),
        (StepBackType.VOLUME_DROP, Severity.MILD),
        (StepBackType.TONE_DROP, Severity.MILD)] : List (StepBackType × Severity)) := by
  cases prevOpt with
  | none => simp [detectStepBack] at h
  | some prev =>
    simp only [detectStepBack] at h
    split_ifs at h <;> (simp only [Option.some.injEq] at h; subst h; simp)

/-- Witness input for C10: a snapshot with severe tremor. -/
def c10curr : VoiceMetricsSnapshot := mkSnap 90 0 0 0 false 50

/-- Witness input for C10: the previous snapshot. -/
def c10prev : VoiceMetricsSnapshot := mkSnap 0 0 0 0 false 50

/-- The event produced at the C10 witness input. -/
def c10event : StepBackEvent :=
  { timestamp := 0, type := StepBackType.VOICE_TREMOR, severity := Severity.SEVERE,
    confidenceBefore := 50, confidenceAfter := 50, transcript := "",
    aiChallenge := "", description := "Voice tremor detected (90/100)" }

/-- Witness for C10 at a concrete severe-tremor detection. -/
theorem detectStepBack_reachable_kinds_witness :
    c10event.type ≠ StepBackType.HESITATION ∧
    (c10event.type = StepBackType.VOLUME_DROP → c10event.severity ≠ Severity.MODERATE) ∧
    (c10event.type = StepBackType.TONE_DROP → c10event.severity = Severity.MILD) ∧
    (c10event.type, c10event.severity) ∈
      ([(StepBackType.CONFIDENCE_COLLAPSE, Severity.SEVERE),
        (StepBackType.CONFIDENCE_COLLAPSE, Severity.MODERATE),
        (StepBackType.IDEA_ABANDON, Severity.MODERATE),
        (StepBackType.VOICE_TREMOR, Severity.SEVERE),
        (StepBackType.VOICE_TREMOR, Severity.MODERATE),
        (StepBackType.VOLUME_DROP, Severity.SEVERE),
        (StepBackType.VOLUME_DROP, Severity.MILD),
        (StepBackType.TONE_DROP, Severity.MILD)] : List (StepBackType × Severity)) :=
  detectStepBack_reachable_kinds voiceInitSession c10curr (some c10prev) ("") c10event
    (by with_unfolding_all decide)

-- ── Claim C4 ───────────────────────────────────────────────────────────────────

/-- Counterexample input for C4: a single frame whose pitch variance makes the
composite confidence non-integral (99.5), so the rounded score in the snapshot
(100) differs from the claimed clamp formula. -/
def c4frame : VoiceFrame :=
  { timestamp := 1000, rmsVolume := 1/2, pitchHz := 100, pitchVariance := 1/2,
    speechRate := 100, pauseDurationMs := 0, fillerWordCount := 0, wordCount := 5,
    transcript := "a" }

/-- C4 counterexample: the confidence score of the returned snapshot does not
equal the clamp formula of the spec at `c4frame` — the source applies `Math.round`, mapping
the clamp value 99.5 to 100. -/
theorem processFrame_confidence_not_exact :
    (processFrame voiceInitSession c4frame).2.confidenceScore ≠
      specConfidence ((processFrame voiceInitSession c4frame).1.baseline)
        (sliceLast 10 (voiceInitSession.frames.getD [] ++ [c4frame])) := by
  with_unfolding_all decide

lemma computeMetrics_confidence (frames : List VoiceFrame) (baseline : Option Baseline)
    (hb : ∀ b, baseline = some b → 0 < b.avgPitch ∧ 0 < b.avgVolume) :
    (computeMetrics frames baseline).confidenceScore =
      jsRound (specConfidence baseline (sliceLast 10 frames)) := by
  cases baseline with
  | none =>
    simp only [computeMetrics, specConfidence, specTremor, specHesitation,
      specToneDrop, specVolumeDrop, specIdeaAbandonment]
    congr 1
    ring_nf
  | some b =>
    obtain ⟨hp, hv⟩ := hb b rfl
    simp only [computeMetrics, specConfidence, specTremor, specHesitation,
      specToneDrop, specVolumeDrop, specIdeaAbandonment]
    simp only [hp, hv, if_true]
    congr 1
    ring_nf

/-- C4 (amended): the composite confidence score of the snapshot returned by
`processFrame` equals the claimed clamp formula over the last 10 frames of the
window — with its components as in the spec — rounded to the nearest integer
(JS `Math.round`), whenever the reference pitch and volume of the
effective baseline are positive (the percentage-decline formula is undefined otherwise). -/
theorem processFrame_confidence_rounded (vs : VoiceState) (f : VoiceFrame)
    (hb : ∀ b, (processFrame vs f).1.baseline = some b →
      0 < b.avgPitch ∧ 0 < b.avgVolume) :
    (processFrame vs f).2.confidenceScore =
      jsRound (specConfidence ((processFrame vs f).1.baseline)
        (sliceLast 10 (vs.frames.getD [] ++ [f]))) :=
  computeMetrics_confidence (vs.frames.getD [] ++ [f])
    ((processFrame vs f).1.baseline) hb

/-- Witness for the amended C4 theorem at the concrete frame `c4frame`
(no baseline exists, so the positivity hypothesis is vacuous). -/
theorem processFrame_confidence_rounded_witness :
    (processFrame voiceInitSession c4frame).2.confidenceScore =
      jsRound (specConfidence ((processFrame voiceInitSession c4frame).1.baseline)
        (sliceLast 10 (voiceInitSession.frames.getD [] ++ [c4frame]))) :=
  processFrame_confidence_rounded voiceInitSession c4frame
    (fun b h => by
      have hnone : (processFrame voiceInitSession c4frame).1.baseline = none := by
        with_unfolding_all decide
      rw [hnone] at h
      cases h)

-- ── Claim C5 ───────────────────────────────────────────────────────────────────

/-- Counterexample input for C5: nine stored frames at 1 s .. 9 s. -/
def mkCalFrame (ts : ℚ) : VoiceFrame :=
  { timestamp := ts, rmsVolume := 4/5, pitchHz := 100, pitchVariance := 0,
    speechRate := 100, pauseDurationMs := 0, fillerWordCount := 0, wordCount := 5,
    transcript := "x" }

/-- The C5 counterexample session state (9 frames, no baseline yet). -/
def c5state : VoiceState :=
  { frames := some ((List.range 9).map (fun i => mkCalFrame (((i : ℚ) + 1) * 1000))),
    baseline := none }

/-- The C5 counterexample incoming frame at 31 s. -/
def c5frame : VoiceFrame := mkCalFrame 31000

/-- C5 counterexample: no baseline exists, the elapsed time of the frame exceeds
30 s, and the window holds (at least) 10 frames, yet `processFrame` does not
calibrate — the source requires strictly more than 10 frames. -/
theorem processFrame_no_calibration_at_ten_frames :
    c5state.baseline = none ∧ 30000 < c5frame.timestamp ∧
    10 ≤ (c5state.frames.getD [] ++ [c5frame]).length ∧
    (processFrame c5state c5frame).1.baseline = none := by
  with_unfolding_all decide

/-- C5 (amended): `processFrame` calibrates the baseline exactly when no
baseline exists, the elapsed time of the frame exceeds 30 s, strictly more than 10
frames are stored, and at least 5 frames with timestamp ≤ 30000 ms exist; the
baseline is then the mean pitch, volume and speech rate over the frames with
timestamp ≤ 30000 ms, and otherwise the stored baseline is unchanged. -/
theorem processFrame_baseline_calibration (vs : VoiceState) (f : VoiceFrame) :
    (processFrame vs f).1.baseline =
      (if vs.baseline = none ∧ 30000 < f.timestamp ∧
          10 < (vs.frames.getD [] ++ [f]).length ∧
          5 ≤ ((vs.frames.getD [] ++ [f]).filter
                (fun fr => fr.timestamp ≤ 30000)).length then
        some { avgPitch := avgQ (((vs.frames.getD [] ++ [f]).filter
                  (fun fr => fr.timestamp ≤ 30000)).map (fun fr => fr.pitchHz)),
               avgVolume := avgQ (((vs.frames.getD [] ++ [f]).filter
                  (fun fr => fr.timestamp ≤ 30000)).map (fun fr => fr.rmsVolume)),
               avgRate := avgQ (((vs.frames.getD [] ++ [f]).filter
                  (fun fr => fr.timestamp ≤ 30000)).map (fun fr => fr.speechRate)) }
      else vs.baseline) := by
  simp only [processFrame, calibrateBaseline]
  split_ifs with h1 h2 h3 h4 h5 <;>
    first
      | rfl
      | (exact h1.1.symm)
      | (exact absurd h3.2.2.2 (by omega))
      | (exact absurd ⟨h1.1, h1.2.1, h1.2.2, by omega⟩ h4)
      | (exact absurd ⟨h5.1, h5.2.1, h5.2.2.1⟩ h1)

-- ── Gateway scenario inputs ────────────────────────────────────────────────────

/-- A start request with a 10-second duration (C9 scenario). -/
def gtoConfig10 : SimulationConfig :=
  { taskType := "PGT", durationSec := 10, groupSize := 4,
    scenario := "Obstacle crossing", difficulty := "STANDARD" }

/-- The world right after `sim:start` of the 10-second session. -/
def startedWorld10 : World := handleStart gtoConfig10 ("s1") 0 (connectedWorld ("u1") [])

lemma countdownTick_noTimer (w : World) (h : w.timer = none) : countdownTick w = w := by
  unfold countdownTick
  rw [h]

lemma iterTicks_stable (w : World) (h : w.timer = none) : ∀ n, iterTicks n w = w := by
  intro n
  induction n with
  | zero => rfl
  | succ k ih =>
    show iterTicks k (countdownTick w) = w
    rw [countdownTick_noTimer w h]
    exact ih

lemma iterTicks_add (m n : ℕ) (w : World) :
    iterTicks (m + n) w = iterTicks n (iterTicks m w) := by
  induction m generalizing w with
  | zero => simp [iterTicks]
  | succ k ih =>
    have h1 : k + 1 + n = (k + n) + 1 := by omega
    rw [h1]
    show iterTicks (k + n) (countdownTick w) = iterTicks n (iterTicks (k + 1) w)
    rw [ih (countdownTick w)]
    rfl

-- ── Claim C9 ───────────────────────────────────────────────────────────────────

/-- C9: a session started with durationSec = 10 produces exactly 2 `sim:tick`
broadcasts over its whole lifetime (1 after 9 seconds, the second at the 10th
second), and exactly one automatic `sim:ended` emission whose persisted end
reason is TIMEOUT, occurring at the 10th simulated second (0 ended emissions
exist after 9 seconds, and nothing changes after the 10th). -/
theorem countdown10_two_ticks_one_timeout_end :
    countTicks (iterTicks 9 startedWorld10) = 1 ∧
    countEnded (iterTicks 9 startedWorld10) = 0 ∧
    (∀ n : ℕ, countTicks (iterTicks (10 + n) startedWorld10) = 2 ∧
      countEnded (iterTicks (10 + n) startedWorld10) = 1) ∧
    (iterTicks 10 startedWorld10).dbUpdates.map (fun u => u.endReason)
      = [("TIMEOUT")] := by
  refine ⟨by with_unfolding_all decide, by with_unfolding_all decide, ?_,
    by with_unfolding_all decide⟩
  intro n
  have ht : (iterTicks 10 startedWorld10).timer = none := by with_unfolding_all decide
  rw [iterTicks_add 10 n startedWorld10, iterTicks_stable _ ht n]
  exact ⟨by with_unfolding_all decide, by with_unfolding_all decide⟩

-- ── Claim C1 ───────────────────────────────────────────────────────────────────

/-- C1: ending a session twice (here: the countdown-timeout end followed by a
client `sim:end`) performs the persisted session update twice and emits
`sim:ended` twice — `handleEnd` is not idempotent, because `client.sessionId`
is never cleared and so the already-ended guard never fires. -/
theorem double_end_double_persists :
    countEnded (iterTicks 10 startedWorld10) = 1 ∧
    (iterTicks 10 startedWorld10).dbUpdates.length = 1 ∧
    countEnded (handleEnd none (iterTicks 10 startedWorld10)) = 2 ∧
    (handleEnd none (iterTicks 10 startedWorld10)).dbUpdates.length = 2 ∧
    (handleEnd none (iterTicks 10 startedWorld10)).dbUpdates.map (fun u => u.endReason)
      = [("TIMEOUT"), ("MANUAL")] := by
  refine ⟨by with_unfolding_all decide, by with_unfolding_all decide,
    by with_unfolding_all decide, by with_unfolding_all decide,
    by with_unfolding_all decide⟩

-- ── Claim C2 ───────────────────────────────────────────────────────────────────

/-- C2 counterexample: a disconnect during an active session persists nothing
(no session update, no ended emission; the store record stays ACTIVE), while
an explicit end with reason ABRUPT_DISCONNECT writes one update — so the two
do not have the same effect. -/
theorem disconnect_differs_from_explicit_end :
    (handleDisconnect startedWorld10).dbUpdates.length = 0 ∧
    countEnded (handleDisconnect startedWorld10) = 0 ∧
    (handleDisconnect startedWorld10).dbCreates.map (fun c => c.status)
      = [("ACTIVE")] ∧
    (handleEnd (some ("ABRUPT_DISCONNECT")) startedWorld10).dbUpdates.length = 1 := by
  refine ⟨by with_unfolding_all decide, by with_unfolding_all decide,
    by with_unfolding_all decide, by with_unfolding_all decide⟩

/-- C2 (amended): a client disconnect during an active session cancels the
countdown timer and discards the per-session state of both sub-components (frame
window, baseline, pressure state), but persists no session update, emits
nothing, and leaves every other part of the world — including the durable
store — unchanged. -/
theorem handleDisconnect_cleanup_only (w : World) (sid : String)
    (h : w.sessionId = some sid) :
    handleDisconnect w =
      { w with timer := none, voice := voiceEndSession, pressure := none } := by
  simp only [handleDisconnect, h]

/-- Witness for the amended C2 theorem at the started 10-second session. -/
theorem handleDisconnect_cleanup_only_witness :
    handleDisconnect startedWorld10 =
      { startedWorld10 with timer := none, voice := voiceEndSession, pressure := none } :=
  handleDisconnect_cleanup_only startedWorld10 ("s1") (by with_unfolding_all decide)

-- ── Claim C8 ───────────────────────────────────────────────────────────────────

/-- A long session for the delayed-interrupt scenario. -/
def c8cfg : SimulationConfig :=
  { taskType := "PGT", durationSec := 300, groupSize := 4,
    scenario := "Bridge task", difficulty := "STANDARD" }

/-- A frame at 25 s with enough words to allow an interruption. -/
def c8frame : VoiceFrame :=
  { timestamp := 25000, rmsVolume := 1/2, pitchHz := 100, pitchVariance := 0,
    speechRate := 100, pauseDurationMs := 0, fillerWordCount := 0, wordCount := 50,
    transcript := "plan" }

/-- The world after one frame whose interruption decision draws a 1000 ms
speaking delay (random draws: interrupt, first category, first template,
delayed, delay 1000 ms). -/
def c8world : World :=
  handleVoiceFrame c8frame 25000
    (handleStart c8cfg ("s8") 0 (connectedWorld ("u1") [0, 0, 0, 1/2, 1/2]))

/-- The scheduled decision of the C8 scenario. -/
def c8dec : InterruptionDecision :=
  { shouldInterrupt := true, interruptionType := InterruptionType.CHALLENGE,
    text := "Wait. Explain that again — why did you choose this approach specifically?",
    ttsText := "Wait. Explain that again — why did you choose this approach specifically?",
    pressureLevel := 1, tactic := "Gentle probing — testing clarity of thought",
    waitBeforeMs := 1000 }

/-- C8 counterexample: a delayed (1000 ms) interrupt is scheduled and not yet
emitted, the session ends before the delay elapses (one `sim:ended` emission),
and when the one-shot then fires, the `sim:ai_interrupt` event is still
delivered — appended after the `sim:ended` emission — rather than suppressed. -/
theorem scheduled_interrupt_fires_after_end :
    c8world.pending.map (fun p => p.1) = [1000] ∧
    countInterruptEmits c8world = 0 ∧
    countEnded (handleEnd none c8world) = 1 ∧
    countInterruptEmits (fireScheduled (handleEnd none c8world)) = 1 ∧
    ((fireScheduled (handleEnd none c8world)).emissions.getLast?.map
      (fun e => match e with | Evt.simInterrupt _ => true | _ => false)) = some true := by
  refine ⟨by with_unfolding_all decide, by with_unfolding_all decide,
    by with_unfolding_all decide, by with_unfolding_all decide,
    by with_unfolding_all decide⟩

/-- C8 (amended): the delayed one-shot is not cancellable and carries no
session-active guard: firing a pending scheduled interrupt always appends the
interrupt emission, whatever the session state — in particular also after the
session has ended. -/
theorem fireScheduled_delivers_unconditionally (w : World) (t : ℤ)
    (d : InterruptionDecision) (rest : List (ℤ × InterruptionDecision))
    (h : w.pending = (t, d) :: rest) :
    fireScheduled w =
      { w with pending := rest, emissions := w.emissions ++ [Evt.simInterrupt d] } := by
  simp only [fireScheduled, h]

/-- A concrete world (no active session — e.g. after an end) holding one
scheduled delayed interrupt. -/
def c8pendingWorld : World :=
  { connectedWorld ("u1") [] with pending := [(1000, c8dec)] }

/-- Witness for the amended C8 theorem: firing the pending interrupt of a world
without an active session still delivers it. -/
theorem fireScheduled_delivers_unconditionally_witness :
    fireScheduled c8pendingWorld =
      { c8pendingWorld with
        pending := [],
        emissions := c8pendingWorld.emissions ++ [Evt.simInterrupt c8dec] } :=
  fireScheduled_delivers_unconditionally c8pendingWorld 1000 c8dec [] rfl
